import Mathlib

/-!
Shallow embedding of `src/main.py` (email-validator-api) and verification of
its specification claims.

The Python program validates email addresses in a pipeline:
blacklist check, TLD check, MX resolution (DNS), optional SMTP probe.
Network interactions (DNS responses, SMTP events) are modelled as explicit
data given to the embedded functions; exception handlers in the source
become constructors of the corresponding event datatypes.

Python string operations are modelled by kernel-computable functions on the
character list of a `String` (`lowerChar`/`str_lower` for `str.lower` on the
ASCII range, `str_split` for `str.split` with a one-character separator,
`str_removeAll` for `str.replace(c, "")`, `str_rstrip` for `str.rstrip(c)`,
`str_endswith` for `str.endswith`).
-/

namespace EmailValidator

/-- Model of Python `str.lower` on one character (ASCII range, which covers
every string the program manipulates). -/
def lowerChar (c : Char) : Char :=
  if 65 ≤ c.toNat ∧ c.toNat ≤ 90 then Char.ofNat (c.toNat + 32) else c

/-- Model of Python `str.lower`. -/
def str_lower (s : String) : String :=
  ⟨s.data.map lowerChar⟩

/-- Model of Python `str.split(sep)` for a one-character separator, on
character lists: `"a@b"` splits into `["a", "b"]`, the empty string into
`[""]`; the result is never empty. -/
def splitOnChar (sep : Char) : List Char → List (List Char)
  | [] => [[]]
  | c :: cs =>
    if c == sep then [] :: splitOnChar sep cs
    else
      match splitOnChar sep cs with
      | [] => [[c]]
      | g :: gs => (c :: g) :: gs

/-- Model of Python `str.split(sep)` for a one-character separator. -/
def str_split (sep : Char) (s : String) : List String :=
  (splitOnChar sep s.data).map (fun l => ⟨l⟩)

/-- Model of Python `str.replace(c, "")`: remove every occurrence of `c`. -/
def str_removeAll (c : Char) (s : String) : String :=
  ⟨s.data.filter (fun a => a ≠ c)⟩

/-- Model of Python `str.rstrip(c)`: drop trailing occurrences of `c`. -/
def str_rstrip (c : Char) (s : String) : String :=
  ⟨(s.data.reverse.dropWhile (fun a => a == c)).reverse⟩

/-- Model of Python `str.endswith(suffix)`. -/
def str_endswith (s suffix : String) : Bool :=
  suffix.data.isSuffixOf s.data

/-- Embedding of the `ValidationResult` pydantic model (src/main.py lines 41-48). -/
structure ValidationResult where
  is_valid_format : Bool
  domain_exists : Bool
  is_blacklisted : Bool
  smtp_check_status : String
  is_role_based : Bool
  message : String
  mx_records : Option (List String)
deriving Repr, DecidableEq

/-- Embedding of `VALID_TLDS` (src/main.py line 28), in source order. -/
def VALID_TLDS : List String :=
  [".com", ".net", ".org", ".edu", ".gov", ".co", ".io", ".dev", ".info",
   ".biz", ".mx", ".es", ".app", ".xyz"]

/-- Embedding of `ROLE_BASED_USERS` (src/main.py line 52). -/
def ROLE_BASED_USERS : List String :=
  ["admin", "info", "support", "sales", "contact", "webmaster", "postmaster",
   "abuse", "hostmaster"]

/-- Embedding of `is_role_based` (src/main.py lines 54-57):
`email.split("@")[0].lower().split("+")[0].replace(".", "")` membership in
the role set. -/
def is_role_based (email : String) : Bool :=
  let local_part :=
    str_removeAll '.'
      ((str_split '+' (str_lower ((str_split '@' email).headD ""))).headD "")
  ROLE_BASED_USERS.contains local_part

/-- Embedding of `sorted(list(VALID_TLDS), key=len, reverse=True)`
(src/main.py line 61): the TLD candidates sorted by length, longest first
(Python `sorted` is stable; `List.insertionSort` with this relation is the
same stable descending-length sort). -/
def sorted_tlds : List String :=
  List.insertionSort (fun a b => b.length ≤ a.length) VALID_TLDS

/-- Embedding of the `for tld in sorted_tlds` loop of `is_valid_tld`
(src/main.py lines 63-69): return `true` at the first suffix match that has
at least one character preceding it (`tld_start_index > 0`); a match that is
the whole domain does not return, the loop continues. -/
def tld_loop (domain : String) : List String → Bool
  | [] => false
  | tld :: rest =>
    if str_endswith domain tld then
      if domain.length - tld.length > 0 then true
      else tld_loop domain rest
    else tld_loop domain rest

/-- Embedding of `is_valid_tld` (src/main.py lines 59-69). -/
def is_valid_tld (domain : String) : Bool :=
  tld_loop domain sorted_tlds

/-- One DNS MX answer: an exchange hostname and a preference value
(dnspython `answer.exchange`, `answer.preference`). -/
structure MxAnswer where
  exchange : String
  preference : Nat
deriving Repr, DecidableEq

/-- Outcome of the dnspython `resolver.resolve(domain, "MX")` call
(src/main.py line 86), as distinguished by the handlers at lines 95-101:
a successful answer set, `NXDOMAIN`, `NoAnswer` (the domain exists but the
response carries zero MX records), or any other resolver-level exception. -/
inductive DnsResponse where
  | success (mx_answers : List MxAnswer)
  | nxdomain
  | noAnswer
  | otherError
deriving Repr, DecidableEq

/-- Embedding of Python `str(answer.exchange).rstrip(".")`. -/
def stripTrailingDots (s : String) : String :=
  str_rstrip '.' s

/-- Embedding of the sort key of src/main.py lines 90-93: for a hostname
`x`, the preference of the first answer whose stripped exchange equals `x`
(the `[0]` of the Python list comprehension). -/
def mxKey (mx_answers : List MxAnswer) (x : String) : Nat :=
  ((mx_answers.filter (fun mx => stripTrailingDots mx.exchange == x)).map
    (fun mx => mx.preference)).headD 0

/-- Embedding of src/main.py lines 89-94: build the stripped hostname list
and sort it in place by `mxKey` (Python `list.sort` is stable;
`List.insertionSort` is the same stable sort). -/
def mx_sorted (mx_answers : List MxAnswer) : List String :=
  List.insertionSort
    (fun x y => mxKey mx_answers x ≤ mxKey mx_answers y)
    (mx_answers.map (fun a => stripTrailingDots a.exchange))

/-- Embedding of `get_mx_records` / `sync_mx_lookup` (src/main.py
lines 71-104): `NXDOMAIN` and every other exception yield `none`
("domain does not exist"), `NoAnswer` yields `some []` ("domain exists,
but no MX records"), a successful answer set yields the sorted hostnames.
The function is total: no exception escapes it. -/
def get_mx_records (resp : DnsResponse) : Option (List String) :=
  match resp with
  | .success mx_answers => some (mx_sorted mx_answers)
  | .nxdomain => none
  | .noAnswer => some []
  | .otherError => none

/-- Events of one SMTP probe attempt, as raised by the Python runtime and
dispatched to the handlers of `check_smtp` (src/main.py lines 139-146):
either the dialogue completes up to the `MAIL FROM` and `RCPT TO` replies,
or an exception is raised:
`timeoutErr` is `socket.timeout`/`TimeoutError` (connection or I/O timeout);
`smtpConnectErr` is `smtplib.SMTPConnectError`, which smtplib raises only
when the TCP connection succeeds but the server greeting code is not 220;
`connectionRefusedErr` is the `ConnectionRefusedError` (or other `OSError`)
raised when the TCP connection is refused or fails to establish — it is not
an `SMTPConnectError`, and since `socket.error` is an alias of `OSError` it
is caught by the handler at line 143;
`disconnectErr` is `SMTPServerDisconnected`/`ConnectionResetError` (an
unexpected disconnect mid-conversation), caught by the same line-143
handler; `otherErr` is any other exception. -/
inductive SmtpEvent where
  | dialogue (mailFromCode : Nat) (rcptCode : Nat)
  | timeoutErr
  | smtpConnectErr
  | connectionRefusedErr
  | disconnectErr
  | otherErr
deriving Repr, DecidableEq

/-- Body of `check_smtp` once the target server `mx_records[0]` has been
taken (src/main.py lines 115-146): returns the `(status, message)` pair. -/
def check_smtp_conn (mx_server : String) (ev : SmtpEvent) : String × String :=
  match ev with
  | .dialogue mailFromCode rcptCode =>
    if mailFromCode ≠ 250 then
      ("refused", "Server refused MAIL FROM command.")
    else if rcptCode = 250 then
      ("success", "The mail server confirmed the email address exists (Code 250).")
    else if rcptCode = 550 ∨ rcptCode = 553 then
      ("refused", "Mailbox does not exist (550/553) or server explicitly rejected the address.")
    else
      ("refused", "Server rejected the recipient with code " ++ toString rcptCode ++ ".")
  | .timeoutErr =>
    ("timeout", "Connection to the mail server (" ++ mx_server ++ ") timed out.")
  | .smtpConnectErr =>
    ("refused", "Could not connect to the mail server (" ++ mx_server ++ ") on port 25.")
  | .connectionRefusedErr =>
    -- a refused TCP connect is an OSError, hence caught by the
    -- (SMTPServerDisconnected, ConnectionResetError, socket.error) handler
    -- of src/main.py line 143, not by the SMTPConnectError handler
    ("timeout", "The mail server or network unexpectedly disconnected during validation. Status is uncertain.")
  | .disconnectErr =>
    ("timeout", "The mail server or network unexpectedly disconnected during validation. Status is uncertain.")
  | .otherErr =>
    ("unknown", "An unexpected critical error occurred.")

/-- Embedding of `check_smtp` (src/main.py lines 108-153).
`mx_server = mx_records[0]` is evaluated outside the `try` block, so on an
empty list the Python function raises `IndexError`; that propagated
exception is modelled as `none`. On a nonempty list the function always
returns a `(status, message)` pair. -/
def check_smtp (mx_records : List String) (ev : SmtpEvent) :
    Option (String × String) :=
  match mx_records with
  | [] => none
  | mx_server :: _ => some (check_smtp_conn mx_server ev)

/-- Pipeline stages of `validate_email`, used to record which checks the
control flow actually executed on a given run. -/
inductive Stage where
  | blacklistCheck
  | tldCheck
  | mxResolution
  | smtpProbe
deriving Repr, DecidableEq

/-- Default message of src/main.py line 223. -/
def basicValidationMessage : String :=
  "Basic validation successful. Domain is valid, but mailbox existence was not verified (SMTP check skipped)."

/-- Embedding of `validate_email` (src/main.py lines 158-226).
`blacklist` stands for the process-wide `BLACKLISTED_DOMAINS` set (loaded
from a file outside the core); `dns` and `smtp` are the network responses
the run observes. Returns the `ValidationResult` together with the ordered
list of stages the control flow executed, mirroring the early `return`
statements of the source. -/
def validate_email (blacklist : List String) (email : String)
    (smtp_check_enabled : Bool) (dns : DnsResponse) (smtp : SmtpEvent) :
    ValidationResult × List Stage :=
  let domain := str_lower ((str_split '@' email).getLastD "")
  let result0 : ValidationResult :=
    { is_valid_format := true
      domain_exists := false
      is_blacklisted := false
      smtp_check_status := if !smtp_check_enabled then "skipped" else "unknown"
      is_role_based := is_role_based email
      message := ""
      mx_records := none }
  if blacklist.contains domain then
    ({ result0 with
        is_blacklisted := true
        message := "The domain \x27" ++ domain ++ "\x27 is blacklisted and should not be used." },
     [Stage.blacklistCheck])
  else if !is_valid_tld domain then
    ({ result0 with
        message := "The domain \x27" ++ domain ++ "\x27 does not appear to have a valid Top-Level Domain." },
     [Stage.blacklistCheck, Stage.tldCheck])
  else
    match get_mx_records dns with
    | none =>
      ({ result0 with
          message := "The domain \x27" ++ domain ++ "\x27 does not exist (NXDOMAIN)." },
       [Stage.blacklistCheck, Stage.tldCheck, Stage.mxResolution])
    | some [] =>
      ({ result0 with
          message := "The domain \x27" ++ domain ++ "\x27 exists, but no Mail Exchange (MX) records were found." },
       [Stage.blacklistCheck, Stage.tldCheck, Stage.mxResolution])
    | some (r :: rs) =>
      let result1 := { result0 with
        domain_exists := true
        mx_records := some (r :: rs) }
      if smtp_check_enabled then
        match check_smtp (r :: rs) smtp with
        | none =>
          -- unreachable: the list handed to check_smtp is nonempty
          (result1, [Stage.blacklistCheck, Stage.tldCheck, Stage.mxResolution,
                     Stage.smtpProbe])
        | some (smtp_status, smtp_message) =>
          let message :=
            if smtp_status = "success" then
              "Email \x27" ++ email ++ "\x27 is valid and the mailbox exists."
            else if smtp_status = "refused" then
              "Domain exists, but the mail server explicitly rejected the address. It is likely invalid. Detail: " ++ smtp_message
            else if smtp_status = "timeout" then
              "Domain exists, but the mail server timed out. Mailbox existence is uncertain."
            else
              "Validation failed due to an unexpected server error. Detail: " ++ smtp_message
          let result2 := { result1 with
            smtp_check_status := smtp_status
            message := message }
          let result3 :=
            if result2.message = "" then
              { result2 with message := basicValidationMessage }
            else result2
          (result3, [Stage.blacklistCheck, Stage.tldCheck, Stage.mxResolution,
                     Stage.smtpProbe])
      else
        let result3 :=
          if result1.message = "" then
            { result1 with message := basicValidationMessage }
          else result1
        (result3, [Stage.blacklistCheck, Stage.tldCheck, Stage.mxResolution])

end EmailValidator

open EmailValidator

/-- Helper: the status component produced by the SMTP probe body is always
one of the four literal strings occurring in `check_smtp_conn`. -/
lemma check_smtp_conn_status_mem (mx : String) (ev : SmtpEvent) :
    (check_smtp_conn mx ev).1 ∈
      (["success", "refused", "timeout", "unknown"] : List String) := by
  cases ev with
  | dialogue mf rc =>
    unfold check_smtp_conn
    dsimp only
    split
    · simp
    · split
      · simp
      · split <;> simp
  | timeoutErr => simp [check_smtp_conn]
  | smtpConnectErr => simp [check_smtp_conn]
  | connectionRefusedErr => simp [check_smtp_conn]
  | disconnectErr => simp [check_smtp_conn]
  | otherErr => simp [check_smtp_conn]

/-- C7: MX resolution never propagates an exception (the embedded
`get_mx_records` is a total function over every resolver outcome) and
classifies NXDOMAIN as `none` (Absent), a zero-record success (`NoAnswer`)
as `some []` (NoRoute), and any other resolver-level error as `none`
(Absent). -/
theorem C7_dns_error_classification :
    get_mx_records .nxdomain = none
    ∧ get_mx_records .noAnswer = some []
    ∧ get_mx_records .otherError = none :=
  ⟨rfl, rfl, rfl⟩

/-- C8 counterexample: a TCP connection that is refused
(`ConnectionRefusedError`, an `OSError`, so caught by the `socket.error`
handler of src/main.py line 143 and not by the `SMTPConnectError` handler)
yields status `timeout`, not the claimed `refused` with a could-not-connect
reason. -/
theorem C8_counterexample_refused_connection :
    check_smtp ["mx.example.com"] .connectionRefusedErr
      = some ("timeout", "The mail server or network unexpectedly disconnected during validation. Status is uncertain.")
    ∧ (check_smtp_conn "mx.example.com" .connectionRefusedErr).1 ≠ "refused" :=
  ⟨rfl, by decide⟩

/-- C8 (amended): with a nonempty MX host list the SMTP probe never
propagates an exception and classifies every transport fault: a connection
or I/O timeout yields status `timeout`; a TCP connection that is refused or
fails to establish raises an `OSError`, is caught by the line-143 handler
and yields status `timeout`, not `refused`; `SMTPConnectError` (connection
established but the greeting was not 220) yields status `refused` with the
could-not-connect message; an unexpected mid-conversation disconnect yields
status `timeout`, not `refused`; any other unanticipated fault yields the
inconclusive status `unknown`. -/
theorem C8_smtp_fault_classification (mx_server : String) (rest : List String) :
    check_smtp (mx_server :: rest) .timeoutErr
      = some ("timeout", "Connection to the mail server (" ++ mx_server ++ ") timed out.")
    ∧ check_smtp (mx_server :: rest) .connectionRefusedErr
      = some ("timeout", "The mail server or network unexpectedly disconnected during validation. Status is uncertain.")
    ∧ check_smtp (mx_server :: rest) .smtpConnectErr
      = some ("refused", "Could not connect to the mail server (" ++ mx_server ++ ") on port 25.")
    ∧ check_smtp (mx_server :: rest) .disconnectErr
      = some ("timeout", "The mail server or network unexpectedly disconnected during validation. Status is uncertain.")
    ∧ check_smtp (mx_server :: rest) .otherErr
      = some ("unknown", "An unexpected critical error occurred.") :=
  ⟨rfl, rfl, rfl, rfl, rfl⟩

/-- C5: the TLD check rejects a bare recognized suffix (".com" alone),
accepts "example.com", rejects the unrecognized suffix "example.zzz"; the
candidate list `sorted_tlds` the loop iterates is the recognized set
reordered with every longer suffix tested before every shorter one. -/
theorem C5_tld_check :
    is_valid_tld ".com" = false
    ∧ is_valid_tld "example.com" = true
    ∧ is_valid_tld "example.zzz" = false
    ∧ sorted_tlds.Pairwise (fun a b => b.length ≤ a.length)
    ∧ List.Perm sorted_tlds VALID_TLDS :=
  ⟨by decide, by decide, by decide, by decide,
   List.perm_insertionSort _ _⟩

/-- C4 counterexample: the RCPT TO reply code 251 is a success-class (2xx)
SMTP code, yet `check_smtp` reports the refused status naming the code, not
the accepted status. -/
theorem C4_counterexample_rcpt_251 :
    check_smtp_conn "mx.example.com" (.dialogue 250 251)
      = ("refused", "Server rejected the recipient with code " ++ toString (251 : Nat) ++ ".")
    ∧ (check_smtp_conn "mx.example.com" (.dialogue 250 251)).1 ≠ "success" := by
  constructor
  · rfl
  · decide

/-- C4 (amended): a non-2xx reply to MAIL FROM yields the refused status
with the sender message; the RCPT TO reply is interpreted as: exactly code
250 yields the accepted status; 550 or 553 yields the refused status with
the mailbox-does-not-exist message; any other code yields the refused
status with a message naming that code. -/
theorem C4_smtp_reply_mapping :
    (∀ (mx : String) (mf rc : Nat), ¬(200 ≤ mf ∧ mf ≤ 299) →
      check_smtp_conn mx (.dialogue mf rc)
        = ("refused", "Server refused MAIL FROM command."))
    ∧ (∀ mx : String,
      check_smtp_conn mx (.dialogue 250 250)
        = ("success", "The mail server confirmed the email address exists (Code 250)."))
    ∧ (∀ (mx : String) (rc : Nat), rc = 550 ∨ rc = 553 →
      check_smtp_conn mx (.dialogue 250 rc)
        = ("refused", "Mailbox does not exist (550/553) or server explicitly rejected the address."))
    ∧ (∀ (mx : String) (rc : Nat), rc ≠ 250 → rc ≠ 550 → rc ≠ 553 →
      check_smtp_conn mx (.dialogue 250 rc)
        = ("refused", "Server rejected the recipient with code " ++ toString rc ++ ".")) := by
  refine ⟨?_, ?_, ?_, ?_⟩
  · intro mx mf rc h
    have hmf : mf ≠ 250 := by omega
    simp [check_smtp_conn, hmf]
  · intro mx
    rfl
  · intro mx rc h
    rcases h with h | h <;> subst h <;> rfl
  · intro mx rc h1 h2 h3
    simp [check_smtp_conn, h1, h2, h3]

/-- Witness for C4: the mapping theorem applied at the concrete reply codes
500 (MAIL FROM), 250, 550 and 421 (RCPT TO). -/
theorem C4_smtp_reply_mapping_witness :
    check_smtp_conn "mx.test" (.dialogue 500 250)
      = ("refused", "Server refused MAIL FROM command.")
    ∧ check_smtp_conn "mx.test" (.dialogue 250 250)
      = ("success", "The mail server confirmed the email address exists (Code 250).")
    ∧ check_smtp_conn "mx.test" (.dialogue 250 550)
      = ("refused", "Mailbox does not exist (550/553) or server explicitly rejected the address.")
    ∧ check_smtp_conn "mx.test" (.dialogue 250 421)
      = ("refused", "Server rejected the recipient with code " ++ toString (421 : Nat) ++ ".") :=
  ⟨C4_smtp_reply_mapping.1 "mx.test" 500 250 (by decide),
   C4_smtp_reply_mapping.2.1 "mx.test",
   C4_smtp_reply_mapping.2.2.1 "mx.test" 550 (Or.inl rfl),
   C4_smtp_reply_mapping.2.2.2 "mx.test" 421 (by decide) (by decide) (by decide)⟩

/-- C1: evaluation at a NoRoute run (domain exists, zero MX records). The
returned result reports `domain_exists = false` even though its own message
states that the domain exists; the Routed case (one or more records) does
set `domain_exists = true`. -/
theorem C1_noroute_run_evaluation :
    (validate_email [] "user@example.com" false .noAnswer .otherErr).1.domain_exists = false
    ∧ (validate_email [] "user@example.com" false .noAnswer .otherErr).1.message
      = "The domain \x27example.com\x27 exists, but no Mail Exchange (MX) records were found."
    ∧ (validate_email [] "user@example.com" false
        (.success [⟨"mx1", 10⟩]) .otherErr).1.domain_exists = true := by
  refine ⟨by decide, ?_, by decide⟩
  decide

/-- C2 counterexample: a blacklisted domain with SMTP probing enabled yields
a terminal result whose `smtp_check_status` is the string "unknown", outside
the claimed set {success, refused, timeout, skipped}. -/
theorem C2_counterexample_terminal_unknown :
    (validate_email ["spam.com"] "user@spam.com" true .nxdomain .otherErr).1.smtp_check_status
      = "unknown"
    ∧ (validate_email ["spam.com"] "user@spam.com" true .nxdomain .otherErr).1.smtp_check_status
      ∉ (["success", "refused", "timeout", "skipped"] : List String) := by
  constructor
  · decide
  · decide

/-- C10: every return path of `validate_email` carries
`is_valid_format = true`; the field is fixed at initialization and never
reflects any property of the input. -/
theorem C10_is_valid_format_always_true (blacklist : List String)
    (email : String) (smtp_check_enabled : Bool) (dns : DnsResponse)
    (smtp : SmtpEvent) :
    (validate_email blacklist email smtp_check_enabled dns smtp).1.is_valid_format
      = true := by
  unfold validate_email
  dsimp only
  repeat' split
  all_goals rfl

/-- C2 (amended): in every returned result `smtp_check_status` is one of
success, refused, timeout, skipped, unknown; the value unknown does occur in
terminal results (probing enabled but the pipeline short-circuits before the
probe, or the probe hits an unanticipated fault). -/
theorem C2_smtp_status_range (blacklist : List String) (email : String)
    (smtp_check_enabled : Bool) (dns : DnsResponse) (smtp : SmtpEvent) :
    (validate_email blacklist email smtp_check_enabled dns smtp).1.smtp_check_status
      ∈ (["success", "refused", "timeout", "skipped", "unknown"] : List String) := by
  unfold validate_email
  dsimp only
  split
  · split <;> simp
  · split
    · split <;> simp
    · cases hmx : get_mx_records dns with
      | none =>
        dsimp only
        split <;> simp
      | some l =>
        cases l with
        | nil =>
          dsimp only
          split <;> simp
        | cons r rs =>
          dsimp only
          split
          · rcases hsc : check_smtp_conn r smtp with ⟨st, msg⟩
            have hmem := check_smtp_conn_status_mem r smtp
            rw [hsc] at hmem
            have hck : check_smtp (r :: rs) smtp = some (st, msg) := by
              simp [check_smtp, hsc]
            rw [hck]
            dsimp only
            repeat' split
            all_goals simp at hmem ⊢
            all_goals tauto
          · split <;> simp

/-- C9: whenever the (lowercased) domain of the email is in the blacklist,
`validate_email` returns `is_blacklisted = true` and terminates at the
blacklist stage: the executed-stage trace is exactly the blacklist check, so
neither MX resolution nor the SMTP probe runs. -/
theorem C9_blacklist_short_circuit (blacklist : List String) (email : String)
    (smtp_check_enabled : Bool) (dns : DnsResponse) (smtp : SmtpEvent)
    (h : blacklist.contains (str_lower ((str_split '@' email).getLastD "")) = true) :
    (validate_email blacklist email smtp_check_enabled dns smtp).1.is_blacklisted = true
    ∧ (validate_email blacklist email smtp_check_enabled dns smtp).2
      = [Stage.blacklistCheck]
    ∧ Stage.mxResolution ∉ (validate_email blacklist email smtp_check_enabled dns smtp).2
    ∧ Stage.smtpProbe ∉ (validate_email blacklist email smtp_check_enabled dns smtp).2 := by
  unfold validate_email
  simp at h
  simp [h]

/-- Witness for C9: a concrete blacklisted run. -/
theorem C9_blacklist_short_circuit_witness :
    (validate_email ["spam.com"] "user@spam.com" true .nxdomain .otherErr).1.is_blacklisted = true
    ∧ (validate_email ["spam.com"] "user@spam.com" true .nxdomain .otherErr).2
      = [Stage.blacklistCheck]
    ∧ Stage.mxResolution ∉ (validate_email ["spam.com"] "user@spam.com" true .nxdomain .otherErr).2
    ∧ Stage.smtpProbe ∉ (validate_email ["spam.com"] "user@spam.com" true .nxdomain .otherErr).2 :=
  C9_blacklist_short_circuit ["spam.com"] "user@spam.com" true .nxdomain .otherErr (by decide)

section SortHelpers

variable {α : Type} (k : α → Nat)

/-- Helper: inserting an element whose key differs from `p` does not change
the key-`p` entries of the list. -/
lemma filter_orderedInsert_of_ne (a : α) (l : List α) (p : Nat) (ha : k a ≠ p) :
    (List.orderedInsert (fun x y => k x ≤ k y) a l).filter (fun x => k x == p)
      = l.filter (fun x => k x == p) := by
  induction l with
  | nil => simp [ha]
  | cons b l ih =>
    by_cases hab : k a ≤ k b
    · simp [List.orderedInsert, hab, List.filter_cons, ha]
    · simp [List.orderedInsert, hab, List.filter_cons, ih]

/-- Helper: inserting an element whose key equals `p` puts it in front of
every key-`p` entry already present (the elements it is inserted behind all
have strictly smaller keys). -/
lemma filter_orderedInsert_of_eq (a : α) (l : List α) (p : Nat) (ha : k a = p) :
    (List.orderedInsert (fun x y => k x ≤ k y) a l).filter (fun x => k x == p)
      = a :: l.filter (fun x => k x == p) := by
  subst ha
  induction l with
  | nil => simp
  | cons b l ih =>
    by_cases hab : k a ≤ k b
    · simp [List.orderedInsert, hab, List.filter_cons]
    · have hb : ¬(k b = k a) := by omega
      simp [List.orderedInsert, hab, List.filter_cons, hb, ih]

/-- Helper: stability of insertion sort under a numeric key: for every key
value `p`, the key-`p` entries of the sorted list equal the key-`p` entries
of the input, in the same order. -/
lemma filter_insertionSort_key (l : List α) (p : Nat) :
    (List.insertionSort (fun x y => k x ≤ k y) l).filter (fun x => k x == p)
      = l.filter (fun x => k x == p) := by
  induction l with
  | nil => rfl
  | cons a l ih =>
    by_cases ha : k a = p
    · rw [List.insertionSort, filter_orderedInsert_of_eq k a _ p ha, ih,
        List.filter_cons]
      simp [ha]
    · rw [List.insertionSort, filter_orderedInsert_of_ne k a _ p ha, ih,
        List.filter_cons]
      simp [ha]

/-- Helper: insertion sort under a numeric key yields a list sorted by
that key. -/
lemma sorted_insertionSort_key (l : List α) :
    List.Sorted (fun x y => k x ≤ k y)
      (List.insertionSort (fun x y => k x ≤ k y) l) := by
  haveI : IsTotal α (fun x y => k x ≤ k y) := ⟨fun a b => Nat.le_total _ _⟩
  haveI : IsTrans α (fun x y => k x ≤ k y) := ⟨fun _ _ _ h1 h2 => Nat.le_trans h1 h2⟩
  exact List.sorted_insertionSort _ _

end SortHelpers

/-- Helper: when the stripped exchange hostnames are pairwise distinct, the
sort key of src/main.py lines 90-93 assigns to each answer's hostname
exactly that answer's preference value. -/
lemma mxKey_of_mem (mx_answers : List MxAnswer)
    (hnd : (mx_answers.map (fun a => stripTrailingDots a.exchange)).Nodup) :
    ∀ a ∈ mx_answers, mxKey mx_answers (stripTrailingDots a.exchange) = a.preference := by
  induction mx_answers with
  | nil => intro a ha; cases ha
  | cons b l ih =>
    rw [List.map_cons, List.nodup_cons] at hnd
    intro a ha
    rcases List.mem_cons.mp ha with rfl | hal
    · simp [mxKey, List.filter_cons]
    · have hne : (stripTrailingDots b.exchange == stripTrailingDots a.exchange) = false := by
        rw [beq_eq_false_iff_ne]
        intro he
        exact hnd.1 (he ▸ List.mem_map_of_mem _ hal)
      unfold mxKey
      rw [List.filter_cons, if_neg (by simp [hne])]
      exact ih hnd.2 a hal

/-- C6: when MX resolution succeeds with one or more records whose stripped
exchange hostnames are pairwise distinct, the returned host list is the
stable preference-sort of the resolver's hostnames: it is a permutation of
them, sorted ascending by the key that equals each record's preference
value, and for every preference value the hosts carrying it appear in the
resolver's original order. -/
theorem C6_mx_sorted_by_preference (mx_answers : List MxAnswer)
    (_hne : mx_answers ≠ [])
    (hnd : (mx_answers.map (fun a => stripTrailingDots a.exchange)).Nodup) :
    get_mx_records (.success mx_answers) = some (mx_sorted mx_answers)
    ∧ List.Sorted (fun x y => mxKey mx_answers x ≤ mxKey mx_answers y)
        (mx_sorted mx_answers)
    ∧ List.Perm (mx_sorted mx_answers)
        (mx_answers.map (fun a => stripTrailingDots a.exchange))
    ∧ (∀ a ∈ mx_answers, mxKey mx_answers (stripTrailingDots a.exchange) = a.preference)
    ∧ (∀ p : Nat, (mx_sorted mx_answers).filter (fun x => mxKey mx_answers x == p)
        = (mx_answers.map (fun a => stripTrailingDots a.exchange)).filter
            (fun x => mxKey mx_answers x == p)) := by
  refine ⟨rfl, ?_, ?_, mxKey_of_mem mx_answers hnd, ?_⟩
  · exact sorted_insertionSort_key (mxKey mx_answers) _
  · exact List.perm_insertionSort _ _
  · intro p
    exact filter_insertionSort_key (mxKey mx_answers) _ p

/-- Witness for C6: the mocked resolver response [(mx2,20),(mx1,10)] of the
spec yields the output order [mx1, mx2]. -/
theorem C6_mx_sorted_by_preference_witness :
    get_mx_records (.success [⟨"mx2", 20⟩, ⟨"mx1", 10⟩])
      = some (mx_sorted [⟨"mx2", 20⟩, ⟨"mx1", 10⟩])
    ∧ mx_sorted [⟨"mx2", 20⟩, ⟨"mx1", 10⟩] = ["mx1", "mx2"] :=
  ⟨(C6_mx_sorted_by_preference [⟨"mx2", 20⟩, ⟨"mx1", 10⟩]
      (by decide) (by decide)).1,
   by decide⟩

